import Mathlib

/-!
Formalisation of the Micro-ID grid codec and preprocessor geometry from the
Quadica qip proof-of-concept scripts.  Python integers are modelled by
`Nat`/`Int`, Python floats by exact rationals, strings by `List Char`, and
raised exceptions by `Except String`.
-/

/-! ## Grid codec (generate-test-microid.py, decode-visual-grid.py) -/

/-- Models the Python membership test `c in '01'` used to clean a grid string
(decode-visual-grid.py line 70). -/
def isBinChar (c : Char) : Bool := c == '0' || c == '1'

/-- Models `int(c)` for a character of a cleaned grid string
(decode-visual-grid.py line 78; the argument there is always '0' or '1'). -/
def bitOfChar (c : Char) : Nat := if c == '1' then 1 else 0

/-- Renders a grid cell value as its '0'/'1' character: the canonical
row-major textual form of a grid (spec section 6). -/
def charOfBit (b : Nat) : Char := if b == 1 then '1' else '0'

/-- Flips one cell of a textual grid ('1' becomes '0' and vice versa), used to
state the parity-sensitivity property. -/
def flipChar (c : Char) : Char := if c == '1' then '0' else '1'

/-- generate-test-microid.py `serial_to_binary` (lines 21-25): raises unless
0 ≤ serial ≤ 0xFFFFF, otherwise returns the 20-bit binary representation,
most significant bit first.  `format(serial, '020b')` places the character of
bit (19 - j) at string index j; we return the bit values themselves, composing
the later `int(binary[j])` accesses done by binary_to_grid. -/
def serial_to_binary (serial : Int) : Except String (List Nat) :=
  if serial < 0 ∨ serial > 1048575 then
    .error "Serial must be 0-1048575"
  else
    .ok ((List.range 20).map (fun j => serial.toNat / 2 ^ (19 - j) % 2))

/-- generate-test-microid.py `calculate_parity` (lines 28-31): even parity of
the 20 data bits.  `sum(1 for b in binary if b == '1')` is the number of
1-bits of the binary representation, i.e. `binary.count 1` here. -/
def calculate_parity (binary : List Nat) : Nat :=
  if binary.count 1 % 2 = 0 then 0 else 1

/-- generate-test-microid.py `binary_to_grid` (lines 34-88): the fixed bit
layout.  Anchors at the four corners are 1, `binary[j]` fills the data cells
row-major per the documented table, and the parity bit sits at row 4
column 3. -/
def binary_to_grid (binary : List Nat) : List (List Nat) :=
  let parity := calculate_parity binary
  let b := fun i => binary.getD i 0
  [[1, b 0, b 1, b 2, 1],
   [b 3, b 4, b 5, b 6, b 7],
   [b 8, b 9, b 10, b 11, b 12],
   [b 13, b 14, b 15, b 16, b 17],
   [1, b 18, b 19, parity, 1]]

/-- Row-major textual form of a 5×5 grid (spec section 6: exactly 25
characters from '0'/'1', row 0 first). -/
def grid_to_string (grid : List (List Nat)) : List Char :=
  grid.flatten.map charOfBit

/-- Spec section 4.1 `encode`: the composition used by
generate-test-microid.py main (lines 156-160), with the produced grid in its
canonical row-major textual form. -/
def encode (serial : Int) : Except String (List Char) :=
  (serial_to_binary serial).map (fun binary => grid_to_string (binary_to_grid binary))

/-- The decoded value of decode-visual-grid.py `grid_to_serial`: the serial
plus the diagnostics dictionary (`binary` kept as the list of 20 bits, MSB
first; the purely cosmetic `serial_formatted` field is omitted). -/
structure DecodeResult where
  serial : Nat
  binary : List Nat
  parity_valid : Bool
  anchors_valid : Bool
  grid : List Char
  deriving DecidableEq

instance {ε α : Type} [DecidableEq ε] [DecidableEq α] : DecidableEq (Except ε α) := by
  intro a b
  cases a <;> cases b
  case error.error e f => exact decidable_of_iff (e = f) (by simp)
  case ok.ok x y => exact decidable_of_iff (x = y) (by simp)
  all_goals exact isFalse (by intro h; cases h)

/-- Flat row-major indices of the 20 data-bit cells, in MSB-first order
(bit 19 at grid[0][1] = index 1, …, bit 0 at grid[4][2] = index 22), per the
layout table shared by both scripts; flat index = 5·row + col. -/
def dataPositions : List Nat :=
  [1, 2, 3, 5, 6, 7, 8, 9, 10, 11, 12, 13, 14, 15, 16, 17, 18, 19, 21, 22]

/-- The 20 data bits read from a cleaned grid string, MSB first:
decode-visual-grid.py lines 84-104 (`bits[19] = grid[0][1]`, …,
`bits[0] = grid[4][2]`). -/
def data_bits (cleaned : List Char) : List Nat :=
  dataPositions.map (fun i => bitOfChar (cleaned.getD i '0'))

/-- `int(binary_str, 2)` for an MSB-first list of bits
(decode-visual-grid.py lines 108-109). -/
def msb_value (bits : List Nat) : Nat :=
  bits.foldl (fun a b => 2 * a + b) 0

/-- decode-visual-grid.py `grid_to_serial` (lines 58-121): strip every
character outside {'0','1'}; fail when 25 characters do not remain; read
anchors, the 20 data bits and the parity bit by flat row-major index
(grid[row][col] = cleaned[5·row + col]); the serial is the MSB-first integer
of the data bits, computed regardless of the validity flags.  The chained
Python comparison on the four corners is equivalent to all of them being 1,
and `ones` sums the same 20 bit values the binary list holds. -/
def grid_to_serial (grid_str : List Char) : Except String DecodeResult :=
  let cleaned := grid_str.filter isBinChar
  if cleaned.length ≠ 25 then
    .error "Invalid grid length"
  else
    let cell := fun i => bitOfChar (cleaned.getD i '0')
    let anchors_valid : Bool :=
      cell 0 == 1 && cell 4 == 1 && cell 20 == 1 && cell 24 == 1
    let binary := data_bits cleaned
    let parity_bit := cell 23
    let serial := msb_value binary
    let ones := binary.sum
    let parity_valid : Bool := (ones + parity_bit) % 2 == 0
    .ok { serial := serial, binary := binary, parity_valid := parity_valid,
          anchors_valid := anchors_valid, grid := cleaned }

/-! ## Helper lemmas for the codec -/

theorem isBinChar_charOfBit (b : Nat) : isBinChar (charOfBit b) = true := by
  unfold isBinChar charOfBit
  split <;> rfl

theorem isBinChar_flipChar (c : Char) : isBinChar (flipChar c) = true := by
  unfold isBinChar flipChar
  split <;> rfl

theorem bitOfChar_charOfBit_mod (m : Nat) : bitOfChar (charOfBit (m % 2)) = m % 2 := by
  rcases Nat.mod_two_eq_zero_or_one m with h | h <;> rw [h] <;> rfl

theorem bitOfChar_charOfBit_one : bitOfChar (charOfBit 1) = 1 := rfl

theorem bitOfChar_flipChar_charOfBit_mod (m : Nat) :
    bitOfChar (flipChar (charOfBit (m % 2))) = 1 - m % 2 := by
  rcases Nat.mod_two_eq_zero_or_one m with h | h <;> rw [h] <;> rfl

theorem bitOfChar_charOfBit_parity (l : List Nat) :
    bitOfChar (charOfBit (calculate_parity l)) = calculate_parity l := by
  unfold calculate_parity
  split <;> rfl

theorem range20 :
    List.range 20 = [0, 1, 2, 3, 4, 5, 6, 7, 8, 9, 10, 11, 12, 13, 14, 15, 16, 17, 18, 19] := rfl

/-- A number below 2^20 is recovered from its 20 bits, most significant
first, by the decoder's fold. -/
theorem msb_value_bits (s : Nat) (hs : s < 1048576) :
    msb_value [s / 524288 % 2, s / 262144 % 2, s / 131072 % 2, s / 65536 % 2,
      s / 32768 % 2, s / 16384 % 2, s / 8192 % 2, s / 4096 % 2,
      s / 2048 % 2, s / 1024 % 2, s / 512 % 2, s / 256 % 2,
      s / 128 % 2, s / 64 % 2, s / 32 % 2, s / 16 % 2,
      s / 8 % 2, s / 4 % 2, s / 2 % 2, s % 2] = s := by
  simp only [msb_value, List.foldl]
  have h19 : 2 * 0 + s / 524288 % 2 = s / 524288 := by omega
  have h18 : 2 * (s / 524288) + s / 262144 % 2 = s / 262144 := by omega
  have h17 : 2 * (s / 262144) + s / 131072 % 2 = s / 131072 := by omega
  have h16 : 2 * (s / 131072) + s / 65536 % 2 = s / 65536 := by omega
  have h15 : 2 * (s / 65536) + s / 32768 % 2 = s / 32768 := by omega
  have h14 : 2 * (s / 32768) + s / 16384 % 2 = s / 16384 := by omega
  have h13 : 2 * (s / 16384) + s / 8192 % 2 = s / 8192 := by omega
  have h12 : 2 * (s / 8192) + s / 4096 % 2 = s / 4096 := by omega
  have h11 : 2 * (s / 4096) + s / 2048 % 2 = s / 2048 := by omega
  have h10 : 2 * (s / 2048) + s / 1024 % 2 = s / 1024 := by omega
  have h9 : 2 * (s / 1024) + s / 512 % 2 = s / 512 := by omega
  have h8 : 2 * (s / 512) + s / 256 % 2 = s / 256 := by omega
  have h7 : 2 * (s / 256) + s / 128 % 2 = s / 128 := by omega
  have h6 : 2 * (s / 128) + s / 64 % 2 = s / 64 := by omega
  have h5 : 2 * (s / 64) + s / 32 % 2 = s / 32 := by omega
  have h4 : 2 * (s / 32) + s / 16 % 2 = s / 16 := by omega
  have h3 : 2 * (s / 16) + s / 8 % 2 = s / 8 := by omega
  have h2 : 2 * (s / 8) + s / 4 % 2 = s / 4 := by omega
  have h1 : 2 * (s / 4) + s / 2 % 2 = s / 2 := by omega
  have h0 : 2 * (s / 2) + s % 2 = s := by omega
  rw [h19, h18, h17, h16, h15, h14, h13, h12, h11, h10, h9, h8, h7, h6, h5, h4, h3, h2, h1, h0]

/-- For a list of bits, counting the ones is summing. -/
theorem count_one_eq_sum (L : List Nat) (h : ∀ b ∈ L, b ≤ 1) : L.count 1 = L.sum := by
  induction L with
  | nil => rfl
  | cons a t ih =>
    have ha : a ≤ 1 := h a (List.mem_cons_self a t)
    have ht := ih (fun b hb => h b (List.mem_cons_of_mem a hb))
    interval_cases a <;> simp [List.count_cons, ht, Nat.add_comm]

/-- The parity bit computed by the encoder always satisfies the decoder's
even-parity check over the same data bits. -/
theorem parity_check_ok (L : List Nat) (h : ∀ b ∈ L, b ≤ 1) :
    (L.sum + calculate_parity L) % 2 = 0 := by
  unfold calculate_parity
  rw [count_one_eq_sum L h]
  rcases Nat.mod_two_eq_zero_or_one L.sum with h2 | h2 <;> simp [h2] <;> omega

/-! ## C1: encode/decode round-trip -/

/-- C1: for every serial in [0, 1048575], encoding produces a 25-character
row-major grid string, and decoding it returns the same serial with
`anchors_valid = true` and `parity_valid = true`. -/
theorem encode_decode_roundtrip (n : Nat) (hn : n ≤ 1048575) :
    (encode (n : Int)).map List.length = .ok 25 ∧
    ((encode (n : Int)).bind grid_to_serial).map
      (fun r => (r.serial, r.anchors_valid, r.parity_valid)) = .ok (n, true, true) := by
  have hneg : ¬((n : Int) < 0 ∨ (n : Int) > 1048575) := by omega
  constructor
  · simp only [encode, serial_to_binary, if_neg hneg, Except.map, range20,
      List.map_cons, List.map_nil, Int.toNat_natCast]
    simp [grid_to_string, binary_to_grid]
  · simp only [encode, serial_to_binary, if_neg hneg, Except.map, Except.bind, range20,
      List.map_cons, List.map_nil, Int.toNat_natCast]
    norm_num only
    simp [grid_to_serial, grid_to_string, binary_to_grid,
      List.filter, isBinChar_charOfBit,
      data_bits, dataPositions, bitOfChar_charOfBit_mod, bitOfChar_charOfBit_one,
      bitOfChar_charOfBit_parity]
    constructor
    · exact msb_value_bits n (by omega)
    · have hmem : ∀ b ∈ [n / 524288 % 2, n / 262144 % 2, n / 131072 % 2, n / 65536 % 2,
          n / 32768 % 2, n / 16384 % 2, n / 8192 % 2, n / 4096 % 2,
          n / 2048 % 2, n / 1024 % 2, n / 512 % 2, n / 256 % 2,
          n / 128 % 2, n / 64 % 2, n / 32 % 2, n / 16 % 2,
          n / 8 % 2, n / 4 % 2, n / 2 % 2, n % 2], b ≤ 1 := by
        intro b hb
        fin_cases hb <;> omega
      have hp := parity_check_ok _ hmem
      simpa using hp

/-- C1 witness: the round-trip at the concrete serial 5. -/
theorem encode_decode_roundtrip_witness :
    (encode (5 : Int)).map List.length = .ok 25 ∧
    ((encode (5 : Int)).bind grid_to_serial).map
      (fun r => (r.serial, r.anchors_valid, r.parity_valid)) = .ok (5, true, true) :=
  encode_decode_roundtrip 5 (by norm_num)

/-! ## C2: the concrete example serial 5 -/

/-- C2: `encode 5` produces exactly the grid string
"1000100000000000000110101", and decoding that string returns serial 5 with
valid anchors and parity. -/
theorem encode_five_concrete :
    encode 5 = .ok ("1000100000000000000110101".toList) ∧
    (grid_to_serial ("1000100000000000000110101".toList)).map
      (fun r => (r.serial, r.anchors_valid, r.parity_valid)) = .ok (5, true, true) := by
  decide

/-! ## More codec helper lemmas -/

theorem isBinChar_zero : isBinChar '0' = true := rfl

theorem isBinChar_one : isBinChar '1' = true := rfl

theorem bitOfChar_zero : bitOfChar '0' = 0 := rfl

theorem bitOfChar_one : bitOfChar '1' = 1 := rfl

theorem filter_idem (p : Char → Bool) (l : List Char) :
    (l.filter p).filter p = l.filter p := by
  induction l with
  | nil => rfl
  | cons a t ih => by_cases h : p a <;> simp [List.filter_cons, h, ih]

/-! ## C4: cleaning and the length-25 failure condition -/

/-- C4: decode first removes every character outside {'0','1'}; it fails
exactly when 25 characters do not remain, and a noisy string decodes to the
same result as its cleaned form. -/
theorem decode_strips_noise (t : List Char) :
    ((∃ e, grid_to_serial t = .error e) ↔ (t.filter isBinChar).length ≠ 25) ∧
    grid_to_serial t = grid_to_serial (t.filter isBinChar) := by
  have hidem : (t.filter isBinChar).filter isBinChar = t.filter isBinChar :=
    filter_idem _ _
  by_cases h : (t.filter isBinChar).length = 25 <;>
    simp [grid_to_serial, hidem, h]

/-- C4 witness: a noisy rendition of the serial-5 grid decodes exactly like
its cleaned 25-character core. -/
theorem decode_strips_noise_witness :
    ((∃ e, grid_to_serial ("10001 000x00 00000 00001 10101".toList) = .error e) ↔
      (("10001 000x00 00000 00001 10101".toList).filter isBinChar).length ≠ 25) ∧
    grid_to_serial ("10001 000x00 00000 00001 10101".toList) =
      grid_to_serial (("10001 000x00 00000 00001 10101".toList).filter isBinChar) :=
  decode_strips_noise ("10001 000x00 00000 00001 10101".toList)

/-! ## C5: the InvalidSerial range check -/

/-- C5: encode fails exactly on serials outside [0, 1048575], producing no
grid there, and succeeds on every serial inside the range. -/
theorem encode_invalid_serial (z : Int) :
    ((∃ e, encode z = .error e) ↔ (z < 0 ∨ z > 1048575)) ∧
    (¬(z < 0 ∨ z > 1048575) → ∃ g, encode z = .ok g) := by
  by_cases h : z < 0 ∨ z > 1048575 <;> simp [encode, serial_to_binary, h, Except.map]

/-- C5 witness: encode rejects 1048576 and accepts 1048575. -/
theorem encode_invalid_serial_witness :
    (∃ e, encode 1048576 = .error e) ∧ (∃ g, encode 1048575 = .ok g) :=
  ⟨(encode_invalid_serial 1048576).1.mpr (by norm_num),
   (encode_invalid_serial 1048575).2 (by norm_num)⟩

/-! ## C3: decode is total on 25-bit content; anchors only affect the flag -/

/-- C3: whenever the filtered content has length 25, decode returns (never
raises) the MSB-first integer of the 20 data bits regardless of the validity
checks; and clearing any one corner anchor of a validly encoded grid still
returns the original serial, with `anchors_valid = false`. -/
theorem decode_never_refuses (t : List Char) (h25 : (t.filter isBinChar).length = 25)
    (n p : Nat) (hn : n ≤ 1048575) (hp : p ∈ [0, 4, 20, 24]) :
    (grid_to_serial t).map (fun r => r.serial) =
      .ok (msb_value (data_bits (t.filter isBinChar))) ∧
    (((encode (n : Int)).map (fun g => g.set p '0')).bind grid_to_serial).map
      (fun r => (r.serial, r.anchors_valid)) = .ok (n, false) := by
  have hneg : ¬((n : Int) < 0 ∨ (n : Int) > 1048575) := by omega
  constructor
  · simp [grid_to_serial, h25, Except.map]
  · simp only [encode, serial_to_binary, if_neg hneg, Except.map, Except.bind, range20,
      List.map_cons, List.map_nil, Int.toNat_natCast]
    norm_num only
    fin_cases hp <;>
    · simp [grid_to_serial, grid_to_string, binary_to_grid, List.filter,
        isBinChar_charOfBit, isBinChar_zero, data_bits, dataPositions,
        bitOfChar_charOfBit_mod, bitOfChar_charOfBit_one, bitOfChar_charOfBit_parity,
        bitOfChar_zero, List.set]
      exact msb_value_bits n (by omega)

/-- C3 witness: instantiated at the serial-5 grid itself and corner index 0. -/
theorem decode_never_refuses_witness :
    (grid_to_serial ("1000100000000000000110101".toList)).map (fun r => r.serial) =
      .ok (msb_value (data_bits (("1000100000000000000110101".toList).filter isBinChar))) ∧
    (((encode ((5 : Nat) : Int)).map (fun g => g.set 0 '0')).bind grid_to_serial).map
      (fun r => (r.serial, r.anchors_valid)) = .ok (5, false) :=
  decode_never_refuses ("1000100000000000000110101".toList) (by decide)
    5 0 (by norm_num) (by decide)

/-! ## C6: parity sensitivity to a single flipped data bit -/

/-- Conditional form of the cell read-back: a bit value at most 1 survives the
render/read round through its character. -/
theorem bit_char_le (b : Nat) (hb : b ≤ 1) : bitOfChar (charOfBit b) = b := by
  interval_cases b <;> rfl

/-- Reading back a flipped rendered cell gives the complemented bit. -/
theorem bit_flip_le (b : Nat) (hb : b ≤ 1) : bitOfChar (flipChar (charOfBit b)) = 1 - b := by
  interval_cases b <;> rfl

set_option maxHeartbeats 8000000 in
/-- Core of the parity-sensitivity argument, over abstract bit values: in the
rendered grid of any 20 bits, flipping the cell at any one data position makes
the decoder's parity check fail. -/
theorem flip_breaks_parity_core (p : Nat) (hp : p ∈ dataPositions)
    (b19 b18 b17 b16 b15 b14 b13 b12 b11 b10 b9 b8 b7 b6 b5 b4 b3 b2 b1 b0 : Nat)
    (h19 : b19 ≤ 1) (h18 : b18 ≤ 1) (h17 : b17 ≤ 1) (h16 : b16 ≤ 1) (h15 : b15 ≤ 1) (h14 : b14 ≤ 1) (h13 : b13 ≤ 1) (h12 : b12 ≤ 1) (h11 : b11 ≤ 1) (h10 : b10 ≤ 1) (h9 : b9 ≤ 1) (h8 : b8 ≤ 1) (h7 : b7 ≤ 1) (h6 : b6 ≤ 1) (h5 : b5 ≤ 1) (h4 : b4 ≤ 1) (h3 : b3 ≤ 1) (h2 : b2 ≤ 1) (h1 : b1 ≤ 1) (h0 : b0 ≤ 1) :
    ∃ r, grid_to_serial ((grid_to_string (binary_to_grid [b19, b18, b17, b16, b15, b14, b13, b12, b11, b10, b9, b8, b7, b6, b5, b4, b3, b2, b1, b0])).set p
        (flipChar ((grid_to_string (binary_to_grid [b19, b18, b17, b16, b15, b14, b13, b12, b11, b10, b9, b8, b7, b6, b5, b4, b3, b2, b1, b0])).getD p '0'))) = .ok r ∧
      r.parity_valid = false := by
  have hmem : ∀ b ∈ [b19, b18, b17, b16, b15, b14, b13, b12, b11, b10, b9, b8, b7, b6, b5, b4, b3, b2, b1, b0], b ≤ 1 := by
    intro b hb
    fin_cases hb <;> assumption
  have hpar := parity_check_ok _ hmem
  simp only [List.sum_cons, List.sum_nil] at hpar
  simp only [dataPositions, List.mem_cons, List.not_mem_nil, or_false] at hp
  clear hmem
  rcases hp with rfl | rfl | rfl | rfl | rfl | rfl | rfl | rfl | rfl | rfl | rfl | rfl | rfl | rfl | rfl | rfl | rfl | rfl | rfl | rfl <;>
  · simp [grid_to_serial, grid_to_string, binary_to_grid, List.filter,
      isBinChar_charOfBit, isBinChar_flipChar, data_bits, dataPositions,
      bitOfChar_charOfBit_parity,
      bit_char_le b19 h19, bit_char_le b18 h18, bit_char_le b17 h17, bit_char_le b16 h16, bit_char_le b15 h15, bit_char_le b14 h14, bit_char_le b13 h13, bit_char_le b12 h12, bit_char_le b11 h11, bit_char_le b10 h10, bit_char_le b9 h9, bit_char_le b8 h8, bit_char_le b7 h7, bit_char_le b6 h6, bit_char_le b5 h5, bit_char_le b4 h4, bit_char_le b3 h3, bit_char_le b2 h2, bit_char_le b1 h1, bit_char_le b0 h0,
      bit_flip_le b19 h19, bit_flip_le b18 h18, bit_flip_le b17 h17, bit_flip_le b16 h16, bit_flip_le b15 h15, bit_flip_le b14 h14, bit_flip_le b13 h13, bit_flip_le b12 h12, bit_flip_le b11 h11, bit_flip_le b10 h10, bit_flip_le b9 h9, bit_flip_le b8 h8, bit_flip_le b7 h7, bit_flip_le b6 h6, bit_flip_le b5 h5, bit_flip_le b4 h4, bit_flip_le b3 h3, bit_flip_le b2 h2, bit_flip_le b1 h1, bit_flip_le b0 h0]
    omega

/-- C6: flipping exactly one of the 20 data-bit cells of a validly encoded
grid (anchors and parity cell untouched) makes decode report
`parity_valid = false`. -/
theorem flip_data_bit_breaks_parity (n p : Nat) (hn : n ≤ 1048575)
    (hp : p ∈ dataPositions) :
    Except.map (fun r => r.parity_valid)
      ((Except.map (fun g => g.set p (flipChar (g.getD p '0'))) (encode (n : Int))).bind
        grid_to_serial) = .ok false := by
  have hneg : ¬((n : Int) < 0 ∨ (n : Int) > 1048575) := by omega
  simp only [encode, serial_to_binary, if_neg hneg, Except.map, Except.bind, range20,
    List.map_cons, List.map_nil, Int.toNat_natCast, Nat.div_one]
  norm_num only
  obtain ⟨r, hr, hrp⟩ := flip_breaks_parity_core p hp
    (n / 524288 % 2) (n / 262144 % 2) (n / 131072 % 2) (n / 65536 % 2) (n / 32768 % 2) (n / 16384 % 2) (n / 8192 % 2) (n / 4096 % 2) (n / 2048 % 2) (n / 1024 % 2) (n / 512 % 2) (n / 256 % 2) (n / 128 % 2) (n / 64 % 2) (n / 32 % 2) (n / 16 % 2) (n / 8 % 2) (n / 4 % 2) (n / 2 % 2) (n / 1 % 2)
    (by omega) (by omega) (by omega) (by omega) (by omega) (by omega) (by omega) (by omega) (by omega) (by omega) (by omega) (by omega) (by omega) (by omega) (by omega) (by omega) (by omega) (by omega) (by omega) (by omega)
  rw [hr]
  simp [Except.map, hrp]

/-- C6 witness: flipping the data cell at flat index 1 (bit 19) of the
serial-5 grid breaks parity. -/
theorem flip_data_bit_breaks_parity_witness :
    Except.map (fun r => r.parity_valid)
      ((Except.map (fun g => g.set 1 (flipChar (g.getD 1 '0'))) (encode ((5 : Nat) : Int))).bind
        grid_to_serial) = .ok false :=
  flip_data_bit_breaks_parity 5 1 (by norm_num) (by decide)

/-! ## C10: the decoded serial depends only on the 20 data cells -/

/-- C10: two 25-character binary grid strings that agree on the 20 data-bit
positions decode to the same serial, whatever their anchor and parity cells
hold. -/
theorem decode_serial_ignores_anchor_parity (t u : List Char)
    (ht : t.length = 25) (hu : u.length = 25)
    (hbt : ∀ c ∈ t, isBinChar c = true) (hbu : ∀ c ∈ u, isBinChar c = true)
    (hagree : ∀ p ∈ dataPositions, t.getD p '0' = u.getD p '0') :
    (grid_to_serial t).map (fun r => r.serial) =
      (grid_to_serial u).map (fun r => r.serial) := by
  have hft : t.filter isBinChar = t := List.filter_eq_self.mpr hbt
  have hfu : u.filter isBinChar = u := List.filter_eq_self.mpr hbu
  have hdb : data_bits t = data_bits u := by
    have ha1 := hagree 1 (by simp [dataPositions])
    have ha2 := hagree 2 (by simp [dataPositions])
    have ha3 := hagree 3 (by simp [dataPositions])
    have ha5 := hagree 5 (by simp [dataPositions])
    have ha6 := hagree 6 (by simp [dataPositions])
    have ha7 := hagree 7 (by simp [dataPositions])
    have ha8 := hagree 8 (by simp [dataPositions])
    have ha9 := hagree 9 (by simp [dataPositions])
    have ha10 := hagree 10 (by simp [dataPositions])
    have ha11 := hagree 11 (by simp [dataPositions])
    have ha12 := hagree 12 (by simp [dataPositions])
    have ha13 := hagree 13 (by simp [dataPositions])
    have ha14 := hagree 14 (by simp [dataPositions])
    have ha15 := hagree 15 (by simp [dataPositions])
    have ha16 := hagree 16 (by simp [dataPositions])
    have ha17 := hagree 17 (by simp [dataPositions])
    have ha18 := hagree 18 (by simp [dataPositions])
    have ha19 := hagree 19 (by simp [dataPositions])
    have ha21 := hagree 21 (by simp [dataPositions])
    have ha22 := hagree 22 (by simp [dataPositions])
    simp [List.getD] at ha1 ha2 ha3 ha5 ha6 ha7 ha8 ha9 ha10 ha11 ha12 ha13 ha14 ha15 ha16 ha17 ha18 ha19 ha21 ha22
    simp [data_bits, dataPositions, ha1, ha2, ha3, ha5, ha6, ha7, ha8, ha9, ha10,
      ha11, ha12, ha13, ha14, ha15, ha16, ha17, ha18, ha19, ha21, ha22]
  simp [grid_to_serial, hft, hfu, ht, hu, hdb, Except.map]

/-- C10 witness: the serial-5 grid and the same grid with its top-left anchor
cleared decode to the same serial. -/
theorem decode_serial_ignores_anchor_parity_witness :
    (grid_to_serial ("1000100000000000000110101".toList)).map (fun r => r.serial) =
      (grid_to_serial ("0000100000000000000110101".toList)).map (fun r => r.serial) :=
  decode_serial_ignores_anchor_parity
    ("1000100000000000000110101".toList) ("0000100000000000000110101".toList)
    (by decide) (by decide) (by decide) (by decide) (by decide)

/-! ## Preprocessor geometry (microid-preprocessor.py)

Python floats are modelled as exact rationals; the float literals of the
source (0.10, 0.95, 0.9, 1.8, 2.0 and the SZ-04 calibration numbers) are
taken at their decimal face value. -/

/-- microid-preprocessor.py `ModuleSpec` (lines 32-54): a named immutable
calibration record, millimetre units. -/
structure ModuleSpec where
  name : String
  width_mm : ℚ
  height_mm : ℚ
  microid_x_mm : ℚ
  microid_y_mm : ℚ
  microid_size_mm : ℚ
  microid_padding_mm : ℚ

/-- The `MODULE_SPECS['SZ-04']` entry (lines 58-69). -/
def SZ04 : ModuleSpec :=
  { name := "SZ-04", width_mm := 20, height_mm := 20,
    microid_x_mm := 4.1281, microid_y_mm := 6.2953,
    microid_size_mm := 1.825, microid_padding_mm := 0.3 }

/-- The contour area pre-filter of `_detect_module_outline` (line 164):
`if area < img_area * 0.10 or area > img_area * 0.95: continue`.  The
candidate passes (is not skipped) exactly when the returned value is true. -/
def area_filter (area img_area : ℚ) : Bool :=
  if area < img_area * 0.10 ∨ area > img_area * 0.95 then false else true

/-- The px/mm scale of `_calculate_transform` (lines 207-222):
`module_px = max(box_w, box_h)`, `module_mm = max(width_mm, height_mm)`,
`scale = module_px / module_mm`. -/
def calculate_transform_scale (box_w box_h : ℚ) (spec : ModuleSpec) : ℚ :=
  max box_w box_h / max spec.width_mm spec.height_mm

/-- The Micro-ID crop center of `_extract_microid_region` (lines 248-269),
in image pixels: offsets from the detected bottom-left corner, rotated by
the detected angle, with the y-component subtracted because image
coordinates grow downward.  The source computes
`cos_a = cos(radians(rotation))` and `sin_a = sin(radians(rotation))`;
both are passed in here (at 0° rotation they are exactly 1 and 0). -/
def microid_crop_center (spec : ModuleSpec) (bottom_left : ℚ × ℚ)
    (scale cos_a sin_a : ℚ) : ℚ × ℚ :=
  let microid_x_px := spec.microid_x_mm * scale
  let microid_y_px := spec.microid_y_mm * scale
  let microid_size_px := spec.microid_size_mm * scale
  let offset_x := microid_x_px * cos_a - microid_y_px * sin_a
  let offset_y := microid_x_px * sin_a + microid_y_px * cos_a
  (bottom_left.1 + offset_x + microid_size_px / 2,
   bottom_left.2 - offset_y - microid_size_px / 2)

/-- Python `int()` applied to a float: truncation toward zero. -/
def pyInt (q : ℚ) : Int := if q < 0 then -⌊-q⌋ else ⌊q⌋

/-- Width and height of the image after the canonical cv2 rotation by r
degrees (`_extract_assuming_full_frame` lines 443-450): 90° and 270° swap
the two dimensions. -/
def rotated_dims (w h r : Nat) : Nat × Nat :=
  if r = 90 ∨ r = 270 then (h, w) else (w, h)

/-- One iteration of the rotation loop of `_extract_assuming_full_frame`
(lines 441-506): whether the crop computed for rotation `r` is nonempty
(`crop.size > 0`, i.e. the clamped integer rectangle has positive width and
height).  The module is assumed to fill 90% of the shorter rotated
dimension; the crop square is centred on the Micro-ID center with the
y-offset negated (image Y grows downward). -/
def fallback_crop_nonempty (spec : ModuleSpec) (tight : Bool) (w h r : Nat) : Bool :=
  let dims := rotated_dims w h r
  let rwq : ℚ := dims.1
  let rhq : ℚ := dims.2
  let module_mm := max spec.width_mm spec.height_mm
  let rot_scale := min rwq rhq * 0.9 / module_mm
  let offset_x_mm := spec.microid_x_mm + spec.microid_size_mm / 2 - spec.width_mm / 2
  let offset_y_mm := -(spec.microid_y_mm + spec.microid_size_mm / 2 - spec.height_mm / 2)
  let center_x := rwq / 2 + offset_x_mm * rot_scale
  let center_y := rhq / 2 + offset_y_mm * rot_scale
  let crop_size : Int :=
    if tight then pyInt ((spec.microid_size_mm - 2 * spec.microid_padding_mm) * rot_scale * 1.8)
    else pyInt (spec.microid_size_mm * rot_scale * 2.0)
  let x1 : Int := max 0 (pyInt (center_x - (crop_size : ℚ) / 2))
  let y1 : Int := max 0 (pyInt (center_y - (crop_size : ℚ) / 2))
  let x2 : Int := min (dims.1 : Int) (pyInt (center_x + (crop_size : ℚ) / 2))
  let y2 : Int := min (dims.2 : Int) (pyInt (center_y + (crop_size : ℚ) / 2))
  decide (x1 < x2 ∧ y1 < y2)

/-- `_extract_assuming_full_frame` (lines 413-525): the loop tries the four
canonical rotations in order and appends a crop only when it is nonempty;
this returns the rotations whose crop is kept.  The function is total: the
fallback never raises. -/
def extract_assuming_full_frame (spec : ModuleSpec) (tight : Bool) (w h : Nat) : List Nat :=
  [0, 90, 180, 270].filter (fun r => fallback_crop_nonempty spec tight w h r)

/-! ## C7: the contour area pre-filter -/

/-- C7 counterexample: a contour of area 7 in an image of area 100 lies
within [5%, 95%] of the image area, yet the code's area filter rejects it
(the code's lower threshold is 10%, not the spec's 5%). -/
theorem area_filter_counterexample :
    (100 : ℚ) * 0.05 ≤ 7 ∧ (7 : ℚ) ≤ 100 * 0.95 ∧ area_filter 7 100 = false := by
  norm_num [area_filter]

/-- C7 amended: the filter accepts a candidate contour exactly when its area
lies within [10%, 95%] of the total image area. -/
theorem area_filter_range (area img_area : ℚ) :
    area_filter area img_area = true ↔
      img_area * 0.10 ≤ area ∧ area ≤ img_area * 0.95 := by
  unfold area_filter
  split <;> rename_i h
  · refine iff_of_false (by simp) ?_
    rintro ⟨h1, h2⟩
    rcases h with h | h <;> linarith
  · refine iff_of_true rfl ?_
    push_neg at h
    exact ⟨h.1, h.2⟩

/-- C7 amended witness: a half-area contour passes the filter. -/
theorem area_filter_range_witness : area_filter 50 100 = true :=
  (area_filter_range 50 100).mpr (by norm_num)

/-! ## C8: the SZ-04 crop-center example -/

/-- C8: for SZ-04 in a 2000×2000 px frame-filling photo at 0° rotation, the
scale is 100 px/mm and the computed Micro-ID crop center is within one pixel
of (504, 1279), y measured downward from the image top (the module's
bottom-left corner sits at pixel (0, 2000)). -/
theorem sz04_crop_center_concrete :
    calculate_transform_scale 2000 2000 SZ04 = 100 ∧
    |(microid_crop_center SZ04 (0, 2000)
        (calculate_transform_scale 2000 2000 SZ04) 1 0).1 - 504| ≤ 1 ∧
    |(microid_crop_center SZ04 (0, 2000)
        (calculate_transform_scale 2000 2000 SZ04) 1 0).2 - 1279| ≤ 1 := by
  norm_num [calculate_transform_scale, microid_crop_center, SZ04, abs_le]

/-! ## C9: the frame-filling fallback -/

/-- C9 counterexample: on a 1×1 px image the fallback's computed crop size
truncates to zero, every rotation's crop is empty and dropped, and the
fallback returns 0 candidate crops, not 4. -/
theorem fallback_counterexample_one_pixel :
    extract_assuming_full_frame SZ04 false 1 1 = [] ∧
    (extract_assuming_full_frame SZ04 false 1 1).length ≠ 4 := by
  have h : extract_assuming_full_frame SZ04 false 1 1 = [] := by
    norm_num [extract_assuming_full_frame, fallback_crop_nonempty, rotated_dims, pyInt,
      SZ04, List.filter]
  exact ⟨h, by rw [h]; decide⟩

/-- C9 amended: the fallback never raises (it is a total function) and
returns one candidate crop per canonical rotation whose computed region is
nonempty — at most 4, dropping only degenerate rotations — and exactly the
four rotations 0°/90°/180°/270° on, for example, a 2000×2000 px image. -/
theorem fallback_at_most_four_per_rotation :
    (∀ w h : Nat, (extract_assuming_full_frame SZ04 false w h).length ≤ 4 ∧
      (∀ r, r ∈ extract_assuming_full_frame SZ04 false w h ↔
        (r ∈ [0, 90, 180, 270] ∧ fallback_crop_nonempty SZ04 false w h r = true))) ∧
    extract_assuming_full_frame SZ04 false 2000 2000 = [0, 90, 180, 270] := by
  refine ⟨fun w h => ⟨?_, fun r => ?_⟩, ?_⟩
  · exact List.length_filter_le _ _
  · exact List.mem_filter
  · norm_num [extract_assuming_full_frame, fallback_crop_nonempty, rotated_dims, pyInt,
      SZ04, List.filter]

/-- C9 amended witness: at 100×100 px the fallback returns at most 4 crops. -/
theorem fallback_at_most_four_per_rotation_witness :
    (extract_assuming_full_frame SZ04 false 100 100).length ≤ 4 :=
  (fallback_at_most_four_per_rotation.1 100 100).1
